import Mathlib

/-!
Shallow embedding of the frequenz microgrid API client
(`src/frequenz/client/microgrid/...`) and proofs about its decoding,
validation, error-wrapping and stream-multiplexing logic.

Wire-level protobuf messages are modelled as Lean structures (proto floats as
rationals, timestamps as integers, oneofs as inductives); Python functions that
can raise `ValueError` are modelled in `Except String`; functions that catch
those errors are total.  Python `enum.Enum` lookups are modelled per enum type:
a wire integer maps to the member with that value when one exists and is
preserved as the raw integer otherwise.
-/

namespace Microgrid

/-! ## Enums

From `component/_category.py`, `component/_status.py`, `component/_battery.py`,
`component/_ev_charger.py`, `component/_inverter.py`. -/

/-- The known categories of components (`ComponentCategory` in `_category.py`). -/
inductive ComponentCategory where
  | UNSPECIFIED
  | GRID
  | METER
  | INVERTER
  | CONVERTER
  | BATTERY
  | EV_CHARGER
  | CRYPTO_MINER
  | ELECTROLYZER
  | CHP
  | RELAY
  | PRECHARGER
  | FUSE
  | VOLTAGE_TRANSFORMER
  | HVAC
  deriving DecidableEq, Repr

/-- The integer value of each `ComponentCategory` member (`_category.py`). -/
def ComponentCategory.value : ComponentCategory → Int
  | .UNSPECIFIED => 0
  | .GRID => 1
  | .METER => 2
  | .INVERTER => 3
  | .CONVERTER => 4
  | .BATTERY => 5
  | .EV_CHARGER => 6
  | .CRYPTO_MINER => 8
  | .ELECTROLYZER => 9
  | .CHP => 10
  | .RELAY => 11
  | .PRECHARGER => 12
  | .FUSE => 13
  | .VOLTAGE_TRANSFORMER => 14
  | .HVAC => 15

/-- Lookup of a `ComponentCategory` member by its integer value. -/
def ComponentCategory.fromInt? : Int → Option ComponentCategory
  | 0 => some .UNSPECIFIED
  | 1 => some .GRID
  | 2 => some .METER
  | 3 => some .INVERTER
  | 4 => some .CONVERTER
  | 5 => some .BATTERY
  | 6 => some .EV_CHARGER
  | 8 => some .CRYPTO_MINER
  | 9 => some .ELECTROLYZER
  | 10 => some .CHP
  | 11 => some .RELAY
  | 12 => some .PRECHARGER
  | 13 => some .FUSE
  | 14 => some .VOLTAGE_TRANSFORMER
  | 15 => some .HVAC
  | _ => none

/-- Python lowercase member name, as computed by `category.name.lower()` in
`_component_proto.py`. -/
def ComponentCategory.pyName : ComponentCategory → String
  | .UNSPECIFIED => "unspecified"
  | .GRID => "grid"
  | .METER => "meter"
  | .INVERTER => "inverter"
  | .CONVERTER => "converter"
  | .BATTERY => "battery"
  | .EV_CHARGER => "ev_charger"
  | .CRYPTO_MINER => "crypto_miner"
  | .ELECTROLYZER => "electrolyzer"
  | .CHP => "chp"
  | .RELAY => "relay"
  | .PRECHARGER => "precharger"
  | .FUSE => "fuse"
  | .VOLTAGE_TRANSFORMER => "voltage_transformer"
  | .HVAC => "hvac"

/-- The known statuses of a component (`ComponentStatus` in `_status.py`,
values are the protobuf constants 0, 1, 2). -/
inductive ComponentStatus where
  | UNSPECIFIED
  | ACTIVE
  | INACTIVE
  deriving DecidableEq, Repr

/-- Lookup of a `ComponentStatus` member by its integer value. -/
def ComponentStatus.fromInt? : Int → Option ComponentStatus
  | 0 => some .UNSPECIFIED
  | 1 => some .ACTIVE
  | 2 => some .INACTIVE
  | _ => none

/-- The known types of batteries (`BatteryType` in `_battery.py`). -/
inductive BatteryType where
  | UNSPECIFIED
  | LI_ION
  | NA_ION
  deriving DecidableEq, Repr

/-- Lookup of a `BatteryType` member by its integer value. -/
def BatteryType.fromInt? : Int → Option BatteryType
  | 0 => some .UNSPECIFIED
  | 1 => some .LI_ION
  | 2 => some .NA_ION
  | _ => none

/-- The known types of EV chargers (`EvChargerType` in `_ev_charger.py`). -/
inductive EvChargerType where
  | UNSPECIFIED
  | AC
  | DC
  | HYBRID
  deriving DecidableEq, Repr

/-- Lookup of an `EvChargerType` member by its integer value. -/
def EvChargerType.fromInt? : Int → Option EvChargerType
  | 0 => some .UNSPECIFIED
  | 1 => some .AC
  | 2 => some .DC
  | 3 => some .HYBRID
  | _ => none

/-- The known types of inverters (`InverterType` in `_inverter.py`). -/
inductive InverterType where
  | UNSPECIFIED
  | BATTERY
  | SOLAR
  | HYBRID
  deriving DecidableEq, Repr

/-- Lookup of an `InverterType` member by its integer value. -/
def InverterType.fromInt? : Int → Option InverterType
  | 0 => some .UNSPECIFIED
  | 1 => some .BATTERY
  | 2 => some .SOLAR
  | 3 => some .HYBRID
  | _ => none

/-- The integer values of the members of the `Metric` enum
(`metrics/_metric.py`). -/
def Metric.knownValues : List Int :=
  [0, 1, 2, 3,
   10, 11, 12, 13, 14, 15, 16, 17, 18, 19, 20, 21, 22, 23, 24, 25, 26, 27, 28,
   29, 30, 31, 32, 33,
   40, 41, 42, 43,
   50, 51, 52, 53, 54, 55, 56, 57, 58, 59, 60, 61, 62, 63, 64, 65, 66, 67, 69,
   70,
   80, 81, 82, 83,
   101, 102, 103,
   120, 121, 122, 123,
   140,
   160, 162, 163, 164, 165, 166, 167]

/-- The integer values of the members of the `ComponentStateCode` enum
(`component/_state_sample.py`). -/
def ComponentStateCode.knownValues : List Int :=
  [0, 1, 2, 3, 4, 5, 6, 7, 8, 9, 10, 20, 21, 22, 23, 24, 30, 31, 40, 41, 42]

/-- The integer values of the members of the `ComponentErrorCode` enum
(`component/_state_sample.py`). -/
def ComponentErrorCode.knownValues : List Int :=
  [0, 1, 2, 3, 4, 5, 6, 7, 8, 9, 10, 11, 12, 13, 14, 15, 16, 17, 18, 19, 20,
   21, 22, 40, 41, 42, 43, 44, 50, 51, 52, 53, 54, 56, 60]

/-! ## enum_from_proto

Modelled from the spec: the helper `enum_from_proto` lives in `_util.py`, which
is missing from the sources; per the spec, unknown enum integer values "are
preserved as raw integers inside a designated unrecognized variant rather than
coerced to a bogus default".  Each call is modelled per enum type as a sum of
the enum member and a raw integer. -/

/-- Modelled from the spec: `enum_from_proto(value, ComponentCategory)`
(`_util.py`, missing from the sources): the member with that value if there is
one, the raw integer otherwise. -/
def enumFromProtoCategory (v : Int) : ComponentCategory ⊕ Int :=
  match ComponentCategory.fromInt? v with
  | some c => .inl c
  | none => .inr v

/-- Modelled from the spec: `enum_from_proto(value, ComponentStatus)`
(`_util.py`, missing from the sources). -/
def enumFromProtoStatus (v : Int) : ComponentStatus ⊕ Int :=
  match ComponentStatus.fromInt? v with
  | some s => .inl s
  | none => .inr v

/-- Modelled from the spec: `enum_from_proto(value, BatteryType)`
(`_util.py`, missing from the sources). -/
def enumFromProtoBatteryType (v : Int) : BatteryType ⊕ Int :=
  match BatteryType.fromInt? v with
  | some t => .inl t
  | none => .inr v

/-- Modelled from the spec: `enum_from_proto(value, EvChargerType)`
(`_util.py`, missing from the sources). -/
def enumFromProtoEvChargerType (v : Int) : EvChargerType ⊕ Int :=
  match EvChargerType.fromInt? v with
  | some t => .inl t
  | none => .inr v

/-- Modelled from the spec: `enum_from_proto(value, InverterType)`
(`_util.py`, missing from the sources). -/
def enumFromProtoInverterType (v : Int) : InverterType ⊕ Int :=
  match InverterType.fromInt? v with
  | some t => .inl t
  | none => .inr v

/-- A `Metric` enum member (identified by its integer value, the enum is
`@enum.unique`) or a preserved raw integer. -/
inductive MetricValue where
  | known (v : Int)
  | unrecognized (v : Int)
  deriving DecidableEq, Repr

/-- Modelled from the spec: `enum_from_proto(value, Metric)` (`_util.py`,
missing from the sources), with the member identified by its value. -/
def enumFromProtoMetric (v : Int) : MetricValue :=
  if v ∈ Metric.knownValues then .known v else .unrecognized v

/-- A `ComponentStateCode` member (identified by its value) or a raw integer. -/
inductive StateCodeValue where
  | known (v : Int)
  | unrecognized (v : Int)
  deriving DecidableEq, Repr

/-- Modelled from the spec: `enum_from_proto(value, ComponentStateCode)`
(`_util.py`, missing from the sources). -/
def enumFromProtoStateCode (v : Int) : StateCodeValue :=
  if v ∈ ComponentStateCode.knownValues then .known v else .unrecognized v

/-- A `ComponentErrorCode` member (identified by its value) or a raw integer. -/
inductive ErrorCodeValue where
  | known (v : Int)
  | unrecognized (v : Int)
  deriving DecidableEq, Repr

/-- Modelled from the spec: `enum_from_proto(value, ComponentErrorCode)`
(`_util.py`, missing from the sources). -/
def enumFromProtoErrorCode (v : Int) : ErrorCodeValue :=
  if v ∈ ComponentErrorCode.knownValues then .known v else .unrecognized v

/-! ## Lifetime and Bounds

`_lifetime.py` is in the sources; `_lifetime_proto.py`, `metrics/_bounds.py`
and `metrics/_bounds_proto.py` are missing and are modelled from the spec.
Timestamps (`datetime`) are modelled as integers, proto floats as rationals. -/

/-- An active operational period of a microgrid asset (`Lifetime` in
`_lifetime.py`); `none` endpoints are unbounded. -/
structure Lifetime where
  start : Option Int := none
  end_ : Option Int := none
  deriving DecidableEq, Repr

/-- Construction of a `Lifetime`, including the `__post_init__` validation of
`_lifetime.py`: raises `ValueError` when both endpoints are set and
`start > end`. -/
def Lifetime.make (start : Option Int) (end_ : Option Int) :
    Except String Lifetime :=
  match start, end_ with
  | some s, some e =>
      if s > e then .error "Start must be before or equal to end."
      else .ok { start := start, end_ := end_ }
  | _, _ => .ok { start := start, end_ := end_ }

/-- A lifetime is well formed when its endpoints, where both are set, are
ordered; every `Lifetime` accepted by `Lifetime.make` satisfies this. -/
def Lifetime.valid (l : Lifetime) : Bool :=
  match l.start, l.end_ with
  | some s, some e => decide (s ≤ e)
  | _, _ => true

/-- Modelled from the spec: the external conversion of a protobuf timestamp to
a `datetime` (`frequenz.client.base.conversion.to_datetime`), kept abstract as
the identity on the integer timeline. -/
def toDatetime (t : Int) : Int := t

/-- A protobuf `Lifetime` message, with optional start and end timestamps. -/
structure PbLifetime where
  start_timestamp : Option Int := none
  end_timestamp : Option Int := none
  deriving DecidableEq, Repr

/-- Modelled from the spec: `lifetime_from_proto` (`_lifetime_proto.py`,
missing from the sources) builds a `Lifetime` from the wire timestamps and
propagates the `ValueError` of the `Lifetime` validation; its callers in
`_component_proto.py` and `_connection_proto.py` catch exactly that error. -/
def lifetimeFromProto (m : PbLifetime) : Except String Lifetime :=
  Lifetime.make (m.start_timestamp.map toDatetime) (m.end_timestamp.map toDatetime)

/-- Metric bounds (`Bounds` in `metrics/_bounds.py`, missing from the
sources). -/
structure Bounds where
  lower : Rat
  upper : Rat
  deriving DecidableEq, Repr

/-- Modelled from the spec: construction of `Bounds` raises `ValueError` for a
present-but-invalid interval (lower bound above the upper bound); per the spec
such intervals are "caught and downgraded to unbounded" by the callers that
catch `ValueError`. -/
def Bounds.make (lower upper : Rat) : Except String Bounds :=
  if lower > upper then
    .error "the lower bound must be lower or equal to the upper bound"
  else .ok { lower := lower, upper := upper }

/-- A protobuf `Bounds` message. -/
structure PbBounds where
  lower : Rat := 0
  upper : Rat := 0
  deriving DecidableEq, Repr

/-- Modelled from the spec: `bounds_from_proto` (`metrics/_bounds_proto.py`,
missing from the sources) converts a wire `Bounds` message, raising
`ValueError` on an invalid interval. -/
def boundsFromProto (m : PbBounds) : Except String Bounds :=
  Bounds.make m.lower m.upper

/-- Whether an `Except` computation returned a value (no exception raised). -/
def isOkB {α : Type} (e : Except String α) : Bool :=
  match e with
  | .ok _ => true
  | .error _ => false

/-! ## Wire messages for components

The protobuf `Component` message and its category-specific sub-messages, as
read by `component/_component_proto.py`.  The `category_type` field holds a
oneof named `metadata` whose possible fields are the six accessed in the
source (`battery`, `ev_charger`, `fuse`, `grid`, `inverter`,
`voltage_transformer`). -/

/-- The protobuf `Battery` sub-message (only its `type` field is read). -/
structure PbBattery where
  type : Int := 0
  deriving DecidableEq, Repr

/-- The protobuf `EvCharger` sub-message (only its `type` field is read). -/
structure PbEvCharger where
  type : Int := 0
  deriving DecidableEq, Repr

/-- The protobuf `Fuse` sub-message. -/
structure PbFuse where
  rated_current : Nat := 0
  deriving DecidableEq, Repr

/-- The protobuf `GridConnectionPoint` sub-message. -/
structure PbGridConnectionPoint where
  rated_fuse_current : Nat := 0
  deriving DecidableEq, Repr

/-- The protobuf `Inverter` sub-message (only its `type` field is read). -/
structure PbInverter where
  type : Int := 0
  deriving DecidableEq, Repr

/-- The protobuf `VoltageTransformer` sub-message. -/
structure PbVoltageTransformer where
  primary : Rat := 0
  secondary : Rat := 0
  deriving DecidableEq, Repr

/-- The `category_type` sub-message: a oneof named `metadata` over the six
category-specific sub-messages, possibly unset. -/
inductive PbCategoryMetadata where
  | unset
  | battery (m : PbBattery)
  | evCharger (m : PbEvCharger)
  | fuse (m : PbFuse)
  | grid (m : PbGridConnectionPoint)
  | inverter (m : PbInverter)
  | voltageTransformer (m : PbVoltageTransformer)
  deriving DecidableEq, Repr

/-- Protobuf `WhichOneof("metadata")`: the name of the set field, if any. -/
def PbCategoryMetadata.whichOneof : PbCategoryMetadata → Option String
  | .unset => none
  | .battery _ => some "battery"
  | .evCharger _ => some "ev_charger"
  | .fuse _ => some "fuse"
  | .grid _ => some "grid"
  | .inverter _ => some "inverter"
  | .voltageTransformer _ => some "voltage_transformer"

/-- Protobuf accessor `category_type.battery`: the set value, or a default
instance when the oneof is unset or set to another field. -/
def PbCategoryMetadata.getBattery : PbCategoryMetadata → PbBattery
  | .battery b => b
  | _ => {}

/-- Protobuf accessor `category_type.ev_charger`. -/
def PbCategoryMetadata.getEvCharger : PbCategoryMetadata → PbEvCharger
  | .evCharger e => e
  | _ => {}

/-- Protobuf accessor `category_type.fuse`. -/
def PbCategoryMetadata.getFuse : PbCategoryMetadata → PbFuse
  | .fuse f => f
  | _ => {}

/-- Protobuf accessor `category_type.grid`. -/
def PbCategoryMetadata.getGrid : PbCategoryMetadata → PbGridConnectionPoint
  | .grid g => g
  | _ => {}

/-- Protobuf accessor `category_type.inverter`. -/
def PbCategoryMetadata.getInverter : PbCategoryMetadata → PbInverter
  | .inverter i => i
  | _ => {}

/-- Protobuf accessor `category_type.voltage_transformer`. -/
def PbCategoryMetadata.getVoltageTransformer :
    PbCategoryMetadata → PbVoltageTransformer
  | .voltageTransformer v => v
  | _ => {}

/-- The key/value rendering of the set sub-message produced by
`google.protobuf.json_format.MessageToDict` on
`getattr(message.category_type, metadata_category)` (external library code,
modelled as a per-message field dump with camel-case keys and stringified
values). -/
def PbCategoryMetadata.setFieldDict : PbCategoryMetadata → List (String × String)
  | .unset => []
  | .battery b => [("type", toString b.type)]
  | .evCharger e => [("type", toString e.type)]
  | .fuse f => [("ratedCurrent", toString f.rated_current)]
  | .grid g => [("ratedFuseCurrent", toString g.rated_fuse_current)]
  | .inverter i => [("type", toString i.type)]
  | .voltageTransformer v =>
      [("primary", toString v.primary), ("secondary", toString v.secondary)]

/-- The protobuf `MetricConfigBounds` message. -/
structure PbMetricConfigBounds where
  metric : Int := 0
  config_bounds : Option PbBounds := none
  deriving DecidableEq, Repr

/-- The protobuf `Component` message, with the fields read by
`component_from_proto`. -/
structure PbComponent where
  id : Nat := 0
  microgrid_id : Nat := 0
  name : String := ""
  manufacturer : String := ""
  model_name : String := ""
  status : Int := 0
  category : Int := 0
  operational_lifetime : Option PbLifetime := none
  metric_config_bounds : List PbMetricConfigBounds := []
  category_type : PbCategoryMetadata := .unset
  deriving DecidableEq, Repr

/-! ## Domain component types

One constructor per concrete component class of `component/_component.py`
(`ComponentTypes`), with the fields shared through the `Component` base class
(`component/_base.py`) gathered in `ComponentInfo`. -/

/-- The fields that every component class inherits from `Component`
(`component/_base.py`); identifiers are modelled as the wrapped naturals of
`ComponentId` and `MicrogridId`. -/
structure ComponentInfo where
  id : Nat
  microgrid_id : Nat
  name : String
  manufacturer : String
  model_name : String
  status : ComponentStatus ⊕ Int
  operational_lifetime : Lifetime
  rated_bounds : List (MetricValue × Bounds)
  deriving DecidableEq, Repr

/-- The closed union of all concrete component classes
(`ComponentTypes` in `component/_component.py`). -/
inductive ComponentTypes where
  | unspecifiedBattery (info : ComponentInfo)
  | liIonBattery (info : ComponentInfo)
  | naIonBattery (info : ComponentInfo)
  | unrecognizedBattery (info : ComponentInfo) (type : Int)
  | chp (info : ComponentInfo)
  | converter (info : ComponentInfo)
  | cryptoMiner (info : ComponentInfo)
  | electrolyzer (info : ComponentInfo)
  | unspecifiedEvCharger (info : ComponentInfo)
  | acEvCharger (info : ComponentInfo)
  | dcEvCharger (info : ComponentInfo)
  | hybridEvCharger (info : ComponentInfo)
  | unrecognizedEvCharger (info : ComponentInfo) (type : Int)
  | fuse (info : ComponentInfo) (rated_current : Nat)
  | gridConnectionPoint (info : ComponentInfo) (rated_fuse_current : Nat)
  | hvac (info : ComponentInfo)
  | unspecifiedInverter (info : ComponentInfo)
  | batteryInverter (info : ComponentInfo)
  | solarInverter (info : ComponentInfo)
  | hybridInverter (info : ComponentInfo)
  | unrecognizedInverter (info : ComponentInfo) (type : Int)
  | meter (info : ComponentInfo)
  | precharger (info : ComponentInfo)
  | relay (info : ComponentInfo)
  | voltageTransformer (info : ComponentInfo) (primary secondary : Rat)
  | unspecifiedComponent (info : ComponentInfo)
  | unrecognizedComponent (info : ComponentInfo) (category : Int)
  | mismatchedCategory (info : ComponentInfo)
      (category : ComponentCategory ⊕ Int)
      (category_specific_metadata : List (String × String))
  deriving DecidableEq, Repr

/-- The shared `Component` fields of any concrete component. -/
def ComponentTypes.info : ComponentTypes → ComponentInfo
  | .unspecifiedBattery i => i
  | .liIonBattery i => i
  | .naIonBattery i => i
  | .unrecognizedBattery i _ => i
  | .chp i => i
  | .converter i => i
  | .cryptoMiner i => i
  | .electrolyzer i => i
  | .unspecifiedEvCharger i => i
  | .acEvCharger i => i
  | .dcEvCharger i => i
  | .hybridEvCharger i => i
  | .unrecognizedEvCharger i _ => i
  | .fuse i _ => i
  | .gridConnectionPoint i _ => i
  | .hvac i => i
  | .unspecifiedInverter i => i
  | .batteryInverter i => i
  | .solarInverter i => i
  | .hybridInverter i => i
  | .unrecognizedInverter i _ => i
  | .meter i => i
  | .precharger i => i
  | .relay i => i
  | .voltageTransformer i _ _ => i
  | .unspecifiedComponent i => i
  | .unrecognizedComponent i _ => i
  | .mismatchedCategory i _ _ => i

/-- Whether a component is the `MismatchedCategoryComponent` variant. -/
def ComponentTypes.isMismatchedCategory : ComponentTypes → Bool
  | .mismatchedCategory _ _ _ => true
  | _ => false

/-- The declared category carried by a `MismatchedCategoryComponent`. -/
def ComponentTypes.mismatchedDeclaredCategory? :
    ComponentTypes → Option (ComponentCategory ⊕ Int)
  | .mismatchedCategory _ c _ => some c
  | _ => none

/-- The raw sub-message metadata carried by a `MismatchedCategoryComponent`. -/
def ComponentTypes.mismatchedMetadata? :
    ComponentTypes → Option (List (String × String))
  | .mismatchedCategory _ _ d => some d
  | _ => none

/-- The raw category integer carried by an `UnrecognizedComponent`. -/
def ComponentTypes.unrecognizedCategory? : ComponentTypes → Option Int
  | .unrecognizedComponent _ n => some n
  | _ => none

/-- The raw type integer carried by an `UnrecognizedBattery`. -/
def ComponentTypes.unrecognizedBatteryType? : ComponentTypes → Option Int
  | .unrecognizedBattery _ t => some t
  | _ => none

/-- Whether a component value belongs to the per-category class family of the
given declared category (a battery class for BATTERY, `Meter` for METER, the
problematic variants for none). -/
def ComponentTypes.isNormalVariantFor :
    ComponentTypes → ComponentCategory → Bool
  | .unspecifiedBattery _, .BATTERY => true
  | .liIonBattery _, .BATTERY => true
  | .naIonBattery _, .BATTERY => true
  | .unrecognizedBattery _ _, .BATTERY => true
  | .chp _, .CHP => true
  | .converter _, .CONVERTER => true
  | .cryptoMiner _, .CRYPTO_MINER => true
  | .electrolyzer _, .ELECTROLYZER => true
  | .unspecifiedEvCharger _, .EV_CHARGER => true
  | .acEvCharger _, .EV_CHARGER => true
  | .dcEvCharger _, .EV_CHARGER => true
  | .hybridEvCharger _, .EV_CHARGER => true
  | .unrecognizedEvCharger _ _, .EV_CHARGER => true
  | .fuse _ _, .FUSE => true
  | .gridConnectionPoint _ _, .GRID => true
  | .hvac _, .HVAC => true
  | .unspecifiedInverter _, .INVERTER => true
  | .batteryInverter _, .INVERTER => true
  | .solarInverter _, .INVERTER => true
  | .hybridInverter _, .INVERTER => true
  | .unrecognizedInverter _ _, .INVERTER => true
  | .meter _, .METER => true
  | .precharger _, .PRECHARGER => true
  | .relay _, .RELAY => true
  | .voltageTransformer _ _ _, .VOLTAGE_TRANSFORMER => true
  | _, _ => false

/-! ## The defensive component decoder (`component/_component_proto.py`)

The Python code appends human-readable strings to two mutable lists
`major_issues` and `minor_issues`; that state is threaded explicitly. -/

/-- The issue lists accumulated during one decode. -/
structure Issues where
  major : List String := []
  minor : List String := []
  deriving DecidableEq, Repr

/-- Append a major issue (`major_issues.append(...)`). -/
def Issues.addMajor (is : Issues) (s : String) : Issues :=
  { is with major := is.major ++ [s] }

/-- Append a minor issue (`minor_issues.append(...)`). -/
def Issues.addMinor (is : Issues) (s : String) : Issues :=
  { is with minor := is.minor ++ [s] }

/-- The helper `_get_operational_lifetime_from_proto` of
`_component_proto.py` (the identical helper of `_connection_proto.py` is
shared): a missing wire lifetime or one whose decoding raises `ValueError` is
replaced by the fully unbounded `Lifetime()`. -/
def getOperationalLifetimeFromProto (field_ : Option PbLifetime)
    (is : Issues) : Lifetime × Issues :=
  match field_ with
  | some pl =>
      match lifetimeFromProto pl with
      | .ok l => (l, is)
      | .error e =>
          ({}, is.addMajor
            s!"invalid operational lifetime ({e}), considering it as missing (i.e. always operational)")
  | none =>
      ({}, is.addMinor
        "missing operational lifetime, considering it always operational")

/-- Insert-or-replace for the association list modelling the Python dict
`bounds[metric] = bound` (replacement keeps the original position, like a
Python dict). -/
def dictInsert (l : List (MetricValue × Bounds)) (k : MetricValue) (v : Bounds) :
    List (MetricValue × Bounds) :=
  if l.any (fun kv => kv.1 == k) then
    l.map (fun kv => if kv.1 == k then (k, v) else kv)
  else l ++ [(k, v)]

/-- One iteration of the loop of `_metric_config_bounds_from_proto`. -/
def metricConfigBoundsStep (acc : List (MetricValue × Bounds) × Issues)
    (mb : PbMetricConfigBounds) : List (MetricValue × Bounds) × Issues :=
  let bounds := acc.1
  let is0 := acc.2
  let metric := enumFromProtoMetric mb.metric
  let is1 :=
    match metric with
    | .known 0 => is0.addMajor "metric_config_bounds has an UNSPECIFIED metric"
    | .unrecognized _ =>
        is0.addMinor "metric_config_bounds has an unrecognized metric"
    | _ => is0
  match mb.config_bounds with
  | none =>
      (bounds, is1.addMajor
        "metric_config_bounds is present but missing config_bounds, considering it unbounded")
  | some pb =>
      match boundsFromProto pb with
      | .error _ =>
          (bounds, is1.addMajor
            "metric_config_bounds is invalid, considering it as missing (i.e. unbouded)")
      | .ok bound =>
          let is2 :=
            if bounds.any (fun kv => kv.1 == metric) then
              is1.addMajor
                "metric_config_bounds is duplicated in the message, using the last one"
            else is1
          (dictInsert bounds metric bound, is2)

/-- The helper `_metric_config_bounds_from_proto`: collects the per-metric
rated bounds, downgrading missing or invalid bounds to absent entries. -/
def metricConfigBoundsFromProto (msgs : List PbMetricConfigBounds)
    (is : Issues) : List (MetricValue × Bounds) × Issues :=
  msgs.foldl metricConfigBoundsStep ([], is)

/-- The helper `_category_matches` of `_component_proto.py`, kept with the
source's inverted comparison (it returns `fixed_category != metadata_category`,
i.e. `true` exactly when the names do NOT match). -/
def categoryMatches (metadataCategory : String) (category : ComponentCategory) :
    Bool :=
  let fixes : List (String × String) := [("grid_connection_point", "grid")]
  let catName := category.pyName
  let fixedCategory := (fixes.lookup catName).getD catName
  fixedCategory != metadataCategory

/-- The helper `_battery_from_proto`: dispatch on the battery type enum, with
unrecognized integers preserved in `UnrecognizedBattery`. -/
def batteryFromProto (msg : PbBattery) (info : ComponentInfo) : ComponentTypes :=
  match enumFromProtoBatteryType msg.type with
  | .inl .UNSPECIFIED => .unspecifiedBattery info
  | .inl .LI_ION => .liIonBattery info
  | .inl .NA_ION => .naIonBattery info
  | .inr t => .unrecognizedBattery info t

/-- The helper `_ev_charger_from_proto`. -/
def evChargerFromProto (msg : PbEvCharger) (info : ComponentInfo) :
    ComponentTypes :=
  match enumFromProtoEvChargerType msg.type with
  | .inl .UNSPECIFIED => .unspecifiedEvCharger info
  | .inl .AC => .acEvCharger info
  | .inl .DC => .dcEvCharger info
  | .inl .HYBRID => .hybridEvCharger info
  | .inr t => .unrecognizedEvCharger info t

/-- The helper `_fuse_from_proto`. -/
def fuseFromProto (msg : PbFuse) (info : ComponentInfo) : ComponentTypes :=
  .fuse info msg.rated_current

/-- The helper `_grid_connection_point_from_proto`. -/
def gridConnectionPointFromProto (msg : PbGridConnectionPoint)
    (info : ComponentInfo) : ComponentTypes :=
  .gridConnectionPoint info msg.rated_fuse_current

/-- The helper `_inverter_from_proto`. -/
def inverterFromProto (msg : PbInverter) (info : ComponentInfo) :
    ComponentTypes :=
  match enumFromProtoInverterType msg.type with
  | .inl .UNSPECIFIED => .unspecifiedInverter info
  | .inl .BATTERY => .batteryInverter info
  | .inl .SOLAR => .solarInverter info
  | .inl .HYBRID => .hybridInverter info
  | .inr t => .unrecognizedInverter info t

/-- The helper `_voltage_transformer_from_proto`. -/
def voltageTransformerFromProtoAux (msg : PbVoltageTransformer)
    (info : ComponentInfo) : ComponentTypes :=
  .voltageTransformer info msg.primary msg.secondary

/-- The `match category` block at the end of
`_component_from_proto_with_issues` (cases in source order). -/
def componentFromProtoDispatch (m : PbComponent) (info : ComponentInfo)
    (category : ComponentCategory ⊕ Int) (is : Issues) :
    ComponentTypes × Issues :=
  match category with
  | .inl .UNSPECIFIED =>
      (.unspecifiedComponent info, is.addMajor "category_type is unspecified")
  | .inr n =>
      (.unrecognizedComponent info n, is.addMajor "category_type is unrecognized")
  | .inl .BATTERY => (batteryFromProto m.category_type.getBattery info, is)
  | .inl .CHP => (.chp info, is)
  | .inl .CONVERTER => (.converter info, is)
  | .inl .CRYPTO_MINER => (.cryptoMiner info, is)
  | .inl .ELECTROLYZER => (.electrolyzer info, is)
  | .inl .EV_CHARGER => (evChargerFromProto m.category_type.getEvCharger info, is)
  | .inl .FUSE => (fuseFromProto m.category_type.getFuse info, is)
  | .inl .GRID => (gridConnectionPointFromProto m.category_type.getGrid info, is)
  | .inl .HVAC => (.hvac info, is)
  | .inl .INVERTER => (inverterFromProto m.category_type.getInverter info, is)
  | .inl .METER => (.meter info, is)
  | .inl .PRECHARGER => (.precharger info, is)
  | .inl .RELAY => (.relay info, is)
  | .inl .VOLTAGE_TRANSFORMER =>
      (voltageTransformerFromProtoAux m.category_type.getVoltageTransformer info, is)

/-- The function `_component_from_proto_with_issues`: builds the shared
fields, then either flags a category/metadata mismatch or dispatches on the
declared category. -/
def componentFromProtoWithIssues (m : PbComponent) (is0 : Issues) :
    ComponentTypes × Issues :=
  let is1 := if m.name = "" then is0.addMinor "name is empty" else is0
  let is2 :=
    if m.manufacturer = "" then is1.addMinor "manufacturer is empty" else is1
  let is3 :=
    if m.model_name = "" then is2.addMinor "model_name is empty" else is2
  let status := enumFromProtoStatus m.status
  let is4 :=
    match status with
    | .inl .UNSPECIFIED => is3.addMajor "status is unspecified"
    | .inr _ => is3.addMajor "status is unrecognized"
    | _ => is3
  let category := enumFromProtoCategory m.category
  let is5 :=
    match category with
    | .inl .UNSPECIFIED => is4.addMajor "category is unspecified"
    | .inr _ => is4.addMajor "category is unrecognized"
    | _ => is4
  let lifetimeRes := getOperationalLifetimeFromProto m.operational_lifetime is5
  let is6 := lifetimeRes.2
  let boundsRes := metricConfigBoundsFromProto m.metric_config_bounds is6
  let is7 := boundsRes.2
  let info : ComponentInfo :=
    { id := m.id
      microgrid_id := m.microgrid_id
      name := m.name
      manufacturer := m.manufacturer
      model_name := m.model_name
      status := status
      operational_lifetime := lifetimeRes.1
      rated_bounds := boundsRes.1 }
  match m.category_type.whichOneof, category with
  | some metadataCategory, .inl c =>
      if categoryMatches metadataCategory c then
        (.mismatchedCategory info (.inl c) m.category_type.setFieldDict,
         is7.addMajor "category_type.metadata does not match the category_type")
      else componentFromProtoDispatch m info category is7
  | _, _ => componentFromProtoDispatch m info category is7

/-- The entry point `component_from_proto`: runs the decode with fresh issue
lists and returns the component (the issue lists are only logged). -/
def componentFromProto (m : PbComponent) : ComponentTypes :=
  (componentFromProtoWithIssues m {}).1

/-! ## Connection decoding (`component/_connection_proto.py`) -/

/-- The protobuf `ComponentConnection` message. -/
structure PbComponentConnection where
  source_component_id : Nat := 0
  destination_component_id : Nat := 0
  operational_lifetime : Option PbLifetime := none
  deriving DecidableEq, Repr

/-- A directed electrical link between two components
(`ComponentConnection` in `component/_connection.py`). -/
structure ComponentConnection where
  source : Nat
  destination : Nat
  operational_lifetime : Lifetime
  deriving DecidableEq, Repr

/-- The entry point `component_connection_from_proto`: a source equal to the
destination is only flagged as a major issue, and the lifetime is decoded
defensively by the shared helper. -/
def componentConnectionFromProto (m : PbComponentConnection) :
    ComponentConnection :=
  let is0 : Issues := {}
  let is1 :=
    if m.source_component_id = m.destination_component_id then
      is0.addMajor "source and destination are the same"
    else is0
  let lifetimeRes := getOperationalLifetimeFromProto m.operational_lifetime is1
  { source := m.source_component_id
    destination := m.destination_component_id
    operational_lifetime := lifetimeRes.1 }

/-! ## Telemetry sample decoding

From `metrics/_sample_proto.py`, `component/_state_sample_proto.py` and
`component/_data_samples_proto.py`.  The domain dataclasses
`AggregatedMetricValue` and `MetricSample` live in `metrics/_sample.py`, which
is missing from the sources; they are modelled from the spec ("value may be a
single scalar or an aggregate of avg, min, max, raw samples") and from the
constructor calls in `metrics/_sample_proto.py`. -/

/-- The protobuf `SimpleMetricValue` sub-message. -/
structure PbSimpleMetricValue where
  value : Rat := 0
  deriving DecidableEq, Repr

/-- The protobuf `AggregatedMetricValue` sub-message. -/
structure PbAggregatedMetricValue where
  avg_value : Rat := 0
  min_value : Rat := 0
  max_value : Rat := 0
  raw_values : List Rat := []
  deriving DecidableEq, Repr

/-- The `metric_value_variant` oneof of the `MetricSampleValue` sub-message. -/
inductive PbMetricValueVariant where
  | unset
  | simpleMetric (m : PbSimpleMetricValue)
  | aggregatedMetric (m : PbAggregatedMetricValue)
  deriving DecidableEq, Repr

/-- The protobuf `MetricSample` message. -/
structure PbMetricSample where
  sampled_at : Int := 0
  metric : Int := 0
  value : Option PbMetricValueVariant := none
  bounds : List PbBounds := []
  source : String := ""
  deriving DecidableEq, Repr

/-- Modelled from the spec: the `AggregatedMetricValue` dataclass
(`metrics/_sample.py`, missing from the sources). -/
structure AggregatedMetricValue where
  avg : Rat
  min : Rat
  max : Rat
  raw_values : List Rat
  deriving DecidableEq, Repr

/-- A decoded metric value: a single scalar or an aggregate. -/
inductive MetricSampleValue where
  | simple (v : Rat)
  | aggregated (a : AggregatedMetricValue)
  deriving DecidableEq, Repr

/-- Modelled from the spec: the `MetricSample` dataclass
(`metrics/_sample.py`, missing from the sources), with the fields filled in by
`metric_sample_from_proto`. -/
structure MetricSample where
  sampled_at : Int
  metric : MetricValue
  value : Option MetricSampleValue
  bounds : List Bounds
  connection : String
  deriving DecidableEq, Repr

/-- The helper `aggregated_metric_sample_from_proto`. -/
def aggregatedMetricSampleFromProto (m : PbAggregatedMetricValue) :
    AggregatedMetricValue :=
  { avg := m.avg_value
    min := m.min_value
    max := m.max_value
    raw_values := m.raw_values }

/-- The entry point `metric_sample_from_proto`.  Note that, unlike the
component decoder, it calls `bounds_from_proto` on each wire bound WITHOUT
catching `ValueError`, so an invalid bound propagates as an exception. -/
def metricSampleFromProto (m : PbMetricSample) : Except String MetricSample := do
  let value : Option MetricSampleValue :=
    match m.value with
    | some (.simpleMetric s) => some (.simple s.value)
    | some (.aggregatedMetric a) =>
        some (.aggregated (aggregatedMetricSampleFromProto a))
    | _ => none
  let bounds ← m.bounds.mapM boundsFromProto
  return { sampled_at := toDatetime m.sampled_at
           metric := enumFromProtoMetric m.metric
           value := value
           bounds := bounds
           connection := m.source }

/-- The protobuf `ComponentState` message. -/
structure PbComponentState where
  sampled_at : Int := 0
  states : List Int := []
  warnings : List Int := []
  errors : List Int := []
  deriving DecidableEq, Repr

/-- The `ComponentStateSample` dataclass (`component/_state_sample.py`). -/
structure ComponentStateSample where
  sampled_at : Int
  states : Finset StateCodeValue
  warnings : Finset ErrorCodeValue
  errors : Finset ErrorCodeValue
  deriving DecidableEq

/-- The entry point `component_state_sample_from_proto` (total: every wire
integer decodes through the enum lookups). -/
def componentStateSampleFromProto (m : PbComponentState) :
    ComponentStateSample :=
  { sampled_at := toDatetime m.sampled_at
    states := (m.states.map enumFromProtoStateCode).toFinset
    warnings := (m.warnings.map enumFromProtoErrorCode).toFinset
    errors := (m.errors.map enumFromProtoErrorCode).toFinset }

/-- The protobuf `ComponentData` message. -/
structure PbComponentData where
  component_id : Nat := 0
  metric_samples : List PbMetricSample := []
  states : List PbComponentState := []
  deriving DecidableEq, Repr

/-- The `ComponentDataSamples` dataclass (`component/_data_samples.py`). -/
structure ComponentDataSamples where
  component_id : Nat
  metrics : List MetricSample
  states : List ComponentStateSample
  deriving DecidableEq

/-- The entry point `component_data_sample_from_proto`
(`component/_data_samples_proto.py`); an exception raised while decoding any
metric sample propagates. -/
def componentDataSampleFromProto (m : PbComponentData) :
    Except String ComponentDataSamples := do
  let metrics ← m.metric_samples.mapM metricSampleFromProto
  return { component_id := m.component_id
           metrics := metrics
           states := m.states.map componentStateSampleFromProto }

/-! ## The `Component.active` property (`component/_base.py`) -/

/-- The `active` cached property of the `Component` base class:
`self.status in (ComponentStatus.ACTIVE, ComponentStatus.UNSPECIFIED)`
(the unspecified case additionally logs a warning). -/
def ComponentInfo.active (c : ComponentInfo) : Bool :=
  decide (c.status = .inl .ACTIVE ∨ c.status = .inl .UNSPECIFIED)

/-! ## Client-side argument validation (`_client.py`)

Python floats are modelled as a rational or NaN; a `timedelta` is modelled by
its microsecond count, with `total_seconds()` as exact rational division and
`round()` as round-half-to-even. -/

/-- A Python float argument: NaN or a finite value. -/
inductive PyFloat where
  | nan
  | val (q : Rat)
  deriving DecidableEq, Repr

/-- The `math.isnan` test. -/
def PyFloat.isNan : PyFloat → Bool
  | .nan => true
  | .val _ => false

/-- Python's `round()` to an integer: round half to even. -/
def pyRound (q : Rat) : Int :=
  let f := ⌊q⌋
  let frac := q - f
  if frac < 1 / 2 then f
  else if frac > 1 / 2 then f + 1
  else if f % 2 = 0 then f else f + 1

/-- A `datetime.timedelta`, by its total microsecond count. -/
structure Timedelta where
  microseconds : Int
  deriving DecidableEq, Repr

/-- The `timedelta.total_seconds()` value (exact). -/
def Timedelta.totalSeconds (d : Timedelta) : Rat :=
  (d.microseconds : Rat) / 1000000

/-- The helper `_delta_to_seconds`:
`round(delta.total_seconds()) if delta is not None else None`. -/
def deltaToSeconds (delta : Option Timedelta) : Option Int :=
  delta.map (fun d => pyRound d.totalSeconds)

/-- The helper `_validate_set_power_args`: rejects NaN power and any provided
lifetime outside 10..900 seconds inclusive. -/
def validateSetPowerArgs (power : PyFloat) (request_lifetime : Option Int) :
    Except String Unit :=
  if power.isNan then .error "power cannot be NaN"
  else
    match request_lifetime with
    | some rl =>
        if ¬(10 ≤ rl ∧ rl ≤ 900) then
          .error "request_lifetime must be between 10 seconds and 15 minutes"
        else .ok ()
    | none => .ok ()

/-- The wire request built by `set_component_power_active` /
`set_component_power_reactive`; an `.ok` result of the methods below means
this request reaches the stub (the network call happens), an `.error` means a
local `ValueError` was raised before any network call. -/
structure SetPowerRequest where
  component_id : Nat
  power : PyFloat
  request_lifetime : Option Int
  deriving DecidableEq, Repr

/-- The method `set_component_power_active` up to the stub invocation:
convert the lifetime, validate when asked, then build the request. -/
def setComponentPowerActive (component_id : Nat) (power : PyFloat)
    (request_lifetime : Option Timedelta) (validate_arguments : Bool) :
    Except String SetPowerRequest := do
  let lifetime_seconds := deltaToSeconds request_lifetime
  if validate_arguments then
    match validateSetPowerArgs power lifetime_seconds with
    | .error e => .error e
    | .ok () =>
        return { component_id := component_id
                 power := power
                 request_lifetime := lifetime_seconds }
  else
    return { component_id := component_id
             power := power
             request_lifetime := lifetime_seconds }

/-- The method `set_component_power_reactive` up to the stub invocation (the
same validation sequence as the active variant). -/
def setComponentPowerReactive (component_id : Nat) (power : PyFloat)
    (request_lifetime : Option Timedelta) (validate_arguments : Bool) :
    Except String SetPowerRequest := do
  let lifetime_seconds := deltaToSeconds request_lifetime
  if validate_arguments then
    match validateSetPowerArgs power lifetime_seconds with
    | .error e => .error e
    | .ok () =>
        return { component_id := component_id
                 power := power
                 request_lifetime := lifetime_seconds }
  else
    return { component_id := component_id
             power := power
             request_lifetime := lifetime_seconds }

/-! ## Timeouts passed to the stub (`_client.py`)

Every stub invocation in `_client.py` passes
`timeout=int(DEFAULT_GRPC_CALL_TIMEOUT)` — including the server-streaming
`ReceiveComponentDataStream` call made inside the broadcaster's stream
factory. -/

/-- The constant `DEFAULT_GRPC_CALL_TIMEOUT = 60.0` (seconds). -/
def DEFAULT_GRPC_CALL_TIMEOUT : Rat := 60

/-- Python `int()` on a float: truncation toward zero. -/
def pyInt (q : Rat) : Int :=
  if 0 ≤ q then ⌊q⌋ else ⌈q⌉

/-- One stub invocation: the RPC name and the deadline passed to it
(`none` would mean no deadline argument). -/
structure StubCall where
  rpc : String
  timeout : Option Int
  deriving DecidableEq, Repr

/-- The stub call of `get_microgrid_info`. -/
def getMicrogridInfoCall : StubCall :=
  { rpc := "GetMicrogridMetadata",
    timeout := some (pyInt DEFAULT_GRPC_CALL_TIMEOUT) }

/-- The stub call of `list_components`. -/
def listComponentsCall : StubCall :=
  { rpc := "ListComponents", timeout := some (pyInt DEFAULT_GRPC_CALL_TIMEOUT) }

/-- The stub call of `list_connections`. -/
def listConnectionsCall : StubCall :=
  { rpc := "ListConnections", timeout := some (pyInt DEFAULT_GRPC_CALL_TIMEOUT) }

/-- The stub call of `set_component_power_active`. -/
def setComponentPowerActiveCall : StubCall :=
  { rpc := "SetComponentPowerActive",
    timeout := some (pyInt DEFAULT_GRPC_CALL_TIMEOUT) }

/-- The stub call of `set_component_power_reactive`. -/
def setComponentPowerReactiveCall : StubCall :=
  { rpc := "SetComponentPowerReactive",
    timeout := some (pyInt DEFAULT_GRPC_CALL_TIMEOUT) }

/-- The stub call made by the stream factory of
`receive_component_data_samples_stream` (`_client.py`, the
`self.stub.ReceiveComponentDataStream(..., timeout=int(DEFAULT_GRPC_CALL_TIMEOUT))`
invocation). -/
def receiveComponentDataStreamCall : StubCall :=
  { rpc := "ReceiveComponentDataStream",
    timeout := some (pyInt DEFAULT_GRPC_CALL_TIMEOUT) }

/-! ## The broadcaster registry (`_client.py`)

`receive_component_data_samples_stream` keeps one `GrpcStreamBroadcaster` per
string key `f"{component_id}-{hash(metrics_set)}"` in the client-owned dict
`self._component_data_samples_broadcasters`.  Python's `frozenset` hash is a
pure function of the set; it is modelled here by the (deterministic) sum of
the elements.  Metrics are taken as their integer values, as produced by
`_get_metric_value`. -/

/-- Modelled from the spec: a `GrpcStreamBroadcaster`
(`frequenz.client.base.streaming`, external): identified by a fresh id,
carrying its stream name and the stub call of its stream factory. -/
structure Broadcaster where
  bid : Nat
  stream_name : String
  call : StubCall
  deriving DecidableEq, Repr

/-- Modelled from the spec: a receiver returned by
`GrpcStreamBroadcaster.new_receiver(maxsize=buffer_size)`: a fresh bounded
queue attached to one broadcaster. -/
structure StreamReceiver where
  broadcaster : Nat
  maxsize : Nat
  deriving DecidableEq, Repr

/-- The client state relevant to streaming: the broadcaster registry
(`self._component_data_samples_broadcasters`) and a counter supplying fresh
broadcaster identities. -/
structure ClientState where
  broadcasters : List (String × Broadcaster) := []
  nextBroadcasterId : Nat := 0
  deriving DecidableEq, Repr

/-- Deterministic stand-in for Python's `hash` of a `frozenset` of metric
values: any pure function of the set. -/
def frozensetHash (s : Finset Int) : Int :=
  s.sum id

/-- The registry key `f"{component_id}-{hash(metrics_set)}"`. -/
def streamKey (component_id : Nat) (metrics : List Int) : String :=
  let h := frozensetHash metrics.toFinset
  s!"{component_id}-{h}"

/-- The method `receive_component_data_samples_stream`: look the key up in
the registry, create (and register) a broadcaster only on a miss, and return
a new receiver from the broadcaster; the component's category or existence is
never consulted and no error can be raised. -/
def receiveComponentDataSamplesStream (st : ClientState) (component_id : Nat)
    (metrics : List Int) (buffer_size : Nat := 50) :
    ClientState × StreamReceiver :=
  let key := streamKey component_id metrics
  match (st.broadcasters.lookup key) with
  | some b => (st, { broadcaster := b.bid, maxsize := buffer_size })
  | none =>
      let b : Broadcaster :=
        { bid := st.nextBroadcasterId
          stream_name := s!"microgrid-client-component-data-{key}"
          call := receiveComponentDataStreamCall }
      ({ broadcasters := st.broadcasters ++ [(key, b)]
         nextBroadcasterId := st.nextBroadcasterId + 1 },
       { broadcaster := b.bid, maxsize := buffer_size })

/-! ## Error wrapping (`_exception.py`)

`grpclib.Status` is the closed gRPC status enum (OK plus the sixteen error
statuses); `ClientError.from_grpc_error` maps the sixteen error statuses to
dedicated subclasses through `status_map` and falls back to the base
`GrpcStatusError` otherwise.  The Python class of the returned object is
modelled by a `kind` tag. -/

/-- The `grpclib.Status` enum members. -/
inductive GrpcStatus where
  | ok
  | cancelled
  | unknown
  | invalidArgument
  | deadlineExceeded
  | notFound
  | alreadyExists
  | permissionDenied
  | resourceExhausted
  | failedPrecondition
  | aborted
  | outOfRange
  | unimplemented
  | internal
  | unavailable
  | dataLoss
  | unauthenticated
  deriving DecidableEq, Repr

/-- A `grpclib.GRPCError`: the transport error being wrapped. -/
structure GrpcError where
  status : GrpcStatus
  message : String := ""
  details : String := ""
  deriving DecidableEq, Repr

/-- The concrete Python class of a wrapped error: one of the sixteen
`GrpcStatusError` subclasses of `_exception.py`, or the base class itself. -/
inductive GrpcStatusErrorKind where
  | operationCancelled
  | unknownError
  | invalidArgument
  | operationTimedOut
  | entityNotFound
  | entityAlreadyExists
  | permissionDenied
  | resourceExhausted
  | operationPreconditionFailed
  | operationAborted
  | operationOutOfRange
  | operationNotImplemented
  | internalError
  | serviceUnavailable
  | dataLoss
  | operationUnauthenticated
  | baseGrpcStatusError
  deriving DecidableEq, Repr

/-- A constructed `GrpcStatusError` (or subclass) instance: the class tag plus
the attributes set by the constructors of `_exception.py`. -/
structure GrpcStatusError where
  kind : GrpcStatusErrorKind
  server_url : String
  operation : String
  description : String
  grpc_error : GrpcError
  deriving DecidableEq, Repr

/-- The fixed description string passed by each subclass constructor. -/
def GrpcStatusErrorKind.description : GrpcStatusErrorKind → String
  | .operationCancelled => "The operation was cancelled"
  | .unknownError =>
      "There was an error that can't be described using other statuses"
  | .invalidArgument => "The client specified an invalid argument"
  | .operationTimedOut =>
      "The time limit was exceeded while waiting for the operation to complete"
  | .entityNotFound => "The requested entity was not found"
  | .entityAlreadyExists => "The entity that we attempted to create already exists"
  | .permissionDenied =>
      "The caller does not have permission to execute the specified operation"
  | .resourceExhausted =>
      "Some resource has been exhausted (for example per-user quota, disk space, etc.)"
  | .operationPreconditionFailed =>
      "The operation was rejected because the system is not in a required state"
  | .operationAborted => "The operation was aborted"
  | .operationOutOfRange => "The operation was attempted past the valid range"
  | .operationNotImplemented =>
      "The operation is not implemented or not supported/enabled in this service"
  | .internalError =>
      "Some invariants expected by the underlying system have been broken"
  | .serviceUnavailable => "The service is currently unavailable"
  | .dataLoss => "Unrecoverable data loss or corruption"
  | .operationUnauthenticated =>
      "The request does not have valid authentication credentials for the operation"
  | .baseGrpcStatusError => "Got an unrecognized status code"

/-- The `status_map` dict of `ClientError.from_grpc_error`: the subclass
constructor for each of the sixteen recognized statuses. -/
def statusMap : GrpcStatus → Option GrpcStatusErrorKind
  | .cancelled => some .operationCancelled
  | .unknown => some .unknownError
  | .invalidArgument => some .invalidArgument
  | .deadlineExceeded => some .operationTimedOut
  | .notFound => some .entityNotFound
  | .alreadyExists => some .entityAlreadyExists
  | .permissionDenied => some .permissionDenied
  | .resourceExhausted => some .resourceExhausted
  | .failedPrecondition => some .operationPreconditionFailed
  | .aborted => some .operationAborted
  | .outOfRange => some .operationOutOfRange
  | .unimplemented => some .operationNotImplemented
  | .internal => some .internalError
  | .unavailable => some .serviceUnavailable
  | .dataLoss => some .dataLoss
  | .unauthenticated => some .operationUnauthenticated
  | .ok => none

/-- The classmethod `ClientError.from_grpc_error`: pick the subclass from
`status_map`, or fall back to the base `GrpcStatusError` with the
"unrecognized status code" description. -/
def fromGrpcError (server_url operation : String) (grpc_error : GrpcError) :
    GrpcStatusError :=
  match statusMap grpc_error.status with
  | some kind =>
      { kind := kind
        server_url := server_url
        operation := operation
        description := kind.description
        grpc_error := grpc_error }
  | none =>
      { kind := .baseGrpcStatusError
        server_url := server_url
        operation := operation
        description := GrpcStatusErrorKind.baseGrpcStatusError.description
        grpc_error := grpc_error }

/-- The status-to-class correspondence asserted by the spec (one dedicated
subclass for each of the sixteen recognized statuses, the base
`GrpcStatusError` for anything else), written independently of
`fromGrpcError` to compare the two. -/
def claimedKindForStatus : GrpcStatus → GrpcStatusErrorKind
  | .cancelled => .operationCancelled
  | .unknown => .unknownError
  | .invalidArgument => .invalidArgument
  | .deadlineExceeded => .operationTimedOut
  | .notFound => .entityNotFound
  | .alreadyExists => .entityAlreadyExists
  | .permissionDenied => .permissionDenied
  | .resourceExhausted => .resourceExhausted
  | .failedPrecondition => .operationPreconditionFailed
  | .aborted => .operationAborted
  | .outOfRange => .operationOutOfRange
  | .unimplemented => .operationNotImplemented
  | .internal => .internalError
  | .unavailable => .serviceUnavailable
  | .dataLoss => .dataLoss
  | .unauthenticated => .operationUnauthenticated
  | .ok => .baseGrpcStatusError

/-! ## Helper lemmas -/

/-- An `Except` bind is ok exactly when the first computation is ok and the
continuation is ok on its value. -/
theorem isOkB_bind {α β : Type} (x : Except String α) (f : α → Except String β) :
    isOkB (x >>= f) =
      (match x with
       | .ok a => isOkB (f a)
       | .error _ => false) := by
  cases x <;> rfl

/-- Decoding wire bounds succeeds exactly when the interval is ordered. -/
theorem isOkB_boundsFromProto (b : PbBounds) :
    isOkB (boundsFromProto b) = decide (b.lower ≤ b.upper) := by
  simp only [boundsFromProto, Bounds.make]
  split
  · rename_i h
    simp only [isOkB]
    exact (decide_eq_false (not_le.mpr h)).symm
  · rename_i h
    simp only [isOkB]
    exact (decide_eq_true (not_lt.mp h)).symm

/-- Mapping a fallible decoder over a list succeeds exactly when it succeeds
on every element. -/
theorem isOkB_mapM {α β : Type} (f : α → Except String β) (l : List α) :
    isOkB (l.mapM f) = l.all fun a => isOkB (f a) := by
  induction l with
  | nil => rfl
  | cons a t ih =>
      rw [List.mapM_cons, isOkB_bind]
      cases h : f a with
      | error e => simp [List.all_cons, h, isOkB]
      | ok b =>
          have ha : isOkB (f a) = true := by rw [h]; rfl
          rw [List.all_cons, ha, Bool.true_and, ← ih]
          show isOkB (t.mapM f >>= fun l => pure (b :: l)) = isOkB (t.mapM f)
          rw [isOkB_bind]
          cases t.mapM f <;> rfl

/-- A key freshly appended to an association list is found by `lookup` when it
was absent before. -/
theorem lookup_append_fresh {β : Type} (l : List (String × β)) (k : String)
    (v : β) (h : l.lookup k = none) : (l ++ [(k, v)]).lookup k = some v := by
  induction l with
  | nil => simp [List.lookup]
  | cons kv t ih =>
      obtain ⟨a, b⟩ := kv
      rw [List.cons_append]
      simp only [List.lookup] at h ⊢
      revert h
      cases hk : (k == a) with
      | true => intro h; simp at h
      | false => intro h; exact ih h

/-- A lifetime accepted by the validating constructor is well formed. -/
theorem Lifetime.make_ok_valid {os oe : Option Int} {l : Lifetime}
    (h : Lifetime.make os oe = .ok l) : l.valid = true := by
  cases os with
  | none => cases h; rfl
  | some s =>
      cases oe with
      | none => cases h; rfl
      | some e =>
          revert h
          simp only [Lifetime.make]
          split
          · intro h; cases h
          · rename_i hle
            intro h
            cases h
            simp [Lifetime.valid, not_lt.mp hle]

/-- The defensively-decoded operational lifetime is always well formed. -/
theorem getOperationalLifetime_valid (f : Option PbLifetime) (is : Issues) :
    ((getOperationalLifetimeFromProto f is).1).valid = true := by
  cases f with
  | none => rfl
  | some pl =>
      simp only [getOperationalLifetimeFromProto]
      cases h : lifetimeFromProto pl with
      | ok l => exact Lifetime.make_ok_valid h
      | error e => rfl

/-- Decoding a battery preserves the shared fields and yields a battery-family
component that is never the mismatched variant. -/
theorem batteryFromProto_shape (msg : PbBattery) (info : ComponentInfo) :
    (batteryFromProto msg info).info = info
    ∧ (batteryFromProto msg info).isMismatchedCategory = false
    ∧ (batteryFromProto msg info).isNormalVariantFor .BATTERY = true := by
  unfold batteryFromProto
  cases h : enumFromProtoBatteryType msg.type with
  | inl t => cases t <;> exact ⟨rfl, rfl, rfl⟩
  | inr t => exact ⟨rfl, rfl, rfl⟩

/-- Decoding an EV charger preserves the shared fields and yields an
EV-charger-family component. -/
theorem evChargerFromProto_shape (msg : PbEvCharger) (info : ComponentInfo) :
    (evChargerFromProto msg info).info = info
    ∧ (evChargerFromProto msg info).isMismatchedCategory = false
    ∧ (evChargerFromProto msg info).isNormalVariantFor .EV_CHARGER = true := by
  unfold evChargerFromProto
  cases h : enumFromProtoEvChargerType msg.type with
  | inl t => cases t <;> exact ⟨rfl, rfl, rfl⟩
  | inr t => exact ⟨rfl, rfl, rfl⟩

/-- Decoding an inverter preserves the shared fields and yields an
inverter-family component. -/
theorem inverterFromProto_shape (msg : PbInverter) (info : ComponentInfo) :
    (inverterFromProto msg info).info = info
    ∧ (inverterFromProto msg info).isMismatchedCategory = false
    ∧ (inverterFromProto msg info).isNormalVariantFor .INVERTER = true := by
  unfold inverterFromProto
  cases h : enumFromProtoInverterType msg.type with
  | inl t => cases t <;> exact ⟨rfl, rfl, rfl⟩
  | inr t => exact ⟨rfl, rfl, rfl⟩

/-- The per-category dispatch preserves the shared fields and never returns
the mismatched variant. -/
theorem dispatch_shape (m : PbComponent) (info : ComponentInfo)
    (cat : ComponentCategory ⊕ Int) (is : Issues) :
    ((componentFromProtoDispatch m info cat is).1).info = info
    ∧ ((componentFromProtoDispatch m info cat is).1).isMismatchedCategory = false := by
  rcases cat with c | n
  · cases c
    case BATTERY =>
        exact ⟨(batteryFromProto_shape _ info).1, (batteryFromProto_shape _ info).2.1⟩
    case EV_CHARGER =>
        exact ⟨(evChargerFromProto_shape _ info).1, (evChargerFromProto_shape _ info).2.1⟩
    case INVERTER =>
        exact ⟨(inverterFromProto_shape _ info).1, (inverterFromProto_shape _ info).2.1⟩
    all_goals exact ⟨rfl, rfl⟩
  · exact ⟨rfl, rfl⟩

/-- For any recognized non-UNSPECIFIED category the dispatch returns a value
of that category's class family. -/
theorem dispatch_normal_variant (m : PbComponent) (info : ComponentInfo)
    (c : ComponentCategory) (is : Issues) (h : c ≠ .UNSPECIFIED) :
    ((componentFromProtoDispatch m info (.inl c) is).1).isNormalVariantFor c = true := by
  cases c
  case UNSPECIFIED => exact absurd rfl h
  case BATTERY => exact (batteryFromProto_shape _ info).2.2
  case EV_CHARGER => exact (evChargerFromProto_shape _ info).2.2
  case INVERTER => exact (inverterFromProto_shape _ info).2.2
  all_goals rfl

/-- The name-fix table of `_category_matches` never fires (no category member
is named `grid_connection_point`), so the helper computes the plain inverted
name comparison. -/
theorem categoryMatches_eq (f : String) (c : ComponentCategory) :
    categoryMatches f c = (c.pyName != f) := by
  cases c <;> rfl

/-- The set field reported by `WhichOneof` is one of the six metadata field
names. -/
theorem whichOneof_mem (ct : PbCategoryMetadata) (f : String)
    (h : ct.whichOneof = some f) :
    f = "battery" ∨ f = "ev_charger" ∨ f = "fuse" ∨ f = "grid" ∨
      f = "inverter" ∨ f = "voltage_transformer" := by
  cases ct with
  | unset => cases h
  | battery m => cases h; exact .inl rfl
  | evCharger m => cases h; exact .inr (.inl rfl)
  | fuse m => cases h; exact .inr (.inr (.inl rfl))
  | grid m => cases h; exact .inr (.inr (.inr (.inl rfl)))
  | inverter m => cases h; exact .inr (.inr (.inr (.inr (.inl rfl))))
  | voltageTransformer m => cases h; exact .inr (.inr (.inr (.inr (.inr rfl))))

/-- A key absent from an association list (as witnessed by `lookup`) does not
occur among the keys. -/
theorem lookup_none_not_mem {β : Type} (l : List (String × β)) (k : String)
    (h : l.lookup k = none) : k ∉ l.map Prod.fst := by
  induction l with
  | nil => simp
  | cons kv t ih =>
      obtain ⟨a, b⟩ := kv
      simp only [List.lookup] at h
      revert h
      cases hk : (k == a) with
      | true => intro h; cases h
      | false =>
          intro h
          simp only [List.map_cons, List.mem_cons]
          rintro (rfl | hmem)
          · simp at hk
          · exact ih h hmem

/-- The local argument validation fails exactly on a NaN power or a provided
lifetime outside 10..900 seconds. -/
theorem validate_error_iff (power : PyFloat) (rl : Option Int) :
    isOkB (validateSetPowerArgs power rl) = false ↔
      power.isNan = true ∨ ∃ n, rl = some n ∧ ¬(10 ≤ n ∧ n ≤ 900) := by
  cases hp : power.isNan
  · cases rl with
    | none => simp [validateSetPowerArgs, hp, isOkB]
    | some n =>
        by_cases hr : 10 ≤ n ∧ n ≤ 900
        · simp [validateSetPowerArgs, hp, hr, isOkB]
        · simp [validateSetPowerArgs, hp, hr, isOkB]
          omega
  · simp [validateSetPowerArgs, hp, isOkB]

/-- With validation enabled the active set-power method fails exactly when
the validation helper fails. -/
theorem isOk_setPowerActive (cid : Nat) (power : PyFloat)
    (lifetime : Option Timedelta) :
    isOkB (setComponentPowerActive cid power lifetime true) =
      isOkB (validateSetPowerArgs power (deltaToSeconds lifetime)) := by
  simp only [setComponentPowerActive]
  cases h : validateSetPowerArgs power (deltaToSeconds lifetime) with
  | error e => simp [h, isOkB]
  | ok u => cases u; simp only [h]; rfl

/-- A metric sample decodes without an exception exactly when all its wire
bounds are ordered. -/
theorem isOk_metricSample (s : PbMetricSample) :
    isOkB (metricSampleFromProto s) =
      s.bounds.all fun b => decide (b.lower ≤ b.upper) := by
  have h := isOkB_mapM boundsFromProto s.bounds
  simp only [isOkB_boundsFromProto] at h
  rw [← h]
  simp only [metricSampleFromProto]
  rw [isOkB_bind]
  cases hb : s.bounds.mapM boundsFromProto <;> simp only [hb] <;> rfl

/-! ## Claim theorems -/

/-- C1 (corrected): the component and connection decoders are total, but the
data-sample decoder is not: `component_data_sample_from_proto` (through
`metric_sample_from_proto`) returns a value exactly when every wire bound of
every metric sample is an ordered interval, because `metric_sample_from_proto`
does not catch the `ValueError` of `bounds_from_proto`; state samples and
unknown enum integers never cause a failure. -/
theorem decode_data_sample_ok_iff_bounds_ordered (d : PbComponentData) :
    isOkB (componentDataSampleFromProto d) =
      d.metric_samples.all fun s => s.bounds.all fun b => decide (b.lower ≤ b.upper) := by
  have h := isOkB_mapM metricSampleFromProto d.metric_samples
  simp only [isOk_metricSample] at h
  rw [← h]
  simp only [componentDataSampleFromProto]
  rw [isOkB_bind]
  cases hb : d.metric_samples.mapM metricSampleFromProto <;> simp only [hb] <;> rfl

/-- C1 counterexample: decoding a component-data message whose single metric
sample carries an invalid bound (lower 1, upper 0) raises `ValueError`
instead of returning a domain value, refuting the claim that the sample
decoders never raise. -/
theorem decode_data_sample_raises_on_invalid_bounds :
    componentDataSampleFromProto
        { component_id := 1,
          metric_samples := [{ metric := 1, bounds := [{ lower := 1, upper := 0 }] }],
          states := [] } =
      .error "the lower bound must be lower or equal to the upper bound" := by
  rfl

/-- C2: for a component message whose declared category is a recognized
`ComponentCategory` member and whose `category_type` metadata oneof is set,
the decoder returns the `MismatchedCategoryComponent` variant exactly when the
set field's name differs from the category's (lower-case) name — the metadata
field `grid` corresponding to `GRID`; when they agree, the normal per-category
class is returned, and a mismatched result carries the declared category and
the raw sub-message as key/value metadata. -/
theorem component_mismatched_category_iff (m : PbComponent)
    (c : ComponentCategory) (f : String)
    (hc : enumFromProtoCategory m.category = .inl c)
    (hf : m.category_type.whichOneof = some f) :
    ((componentFromProto m).isMismatchedCategory = true ↔ f ≠ c.pyName)
    ∧ (f = c.pyName → (componentFromProto m).isNormalVariantFor c = true)
    ∧ ((componentFromProto m).isMismatchedCategory = true →
        (componentFromProto m).mismatchedDeclaredCategory? = some (.inl c)
        ∧ (componentFromProto m).mismatchedMetadata? =
            some m.category_type.setFieldDict) := by
  simp only [componentFromProto, componentFromProtoWithIssues, hc, hf]
  by_cases hm : categoryMatches f c = true
  · simp only [hm, if_true]
    rw [categoryMatches_eq] at hm
    refine ⟨?_, ?_, ?_⟩
    · simp only [ComponentTypes.isMismatchedCategory]
      constructor
      · intro _
        intro hfc
        rw [hfc] at hm
        simp at hm
      · intro _; trivial
    · intro hfc
      exact absurd hfc.symm (bne_iff_ne.mp hm)
    · intro _
      exact ⟨rfl, rfl⟩
  · rw [Bool.not_eq_true] at hm
    simp only [hm, Bool.false_eq_true, if_false]
    rw [categoryMatches_eq] at hm
    have heq : c.pyName = f := bne_eq_false_iff_eq.mp hm
    refine ⟨?_, ?_, ?_⟩
    · rw [(dispatch_shape m _ (.inl c) _).2]
      constructor
      · intro h; cases h
      · intro hne; exact absurd heq.symm hne
    · intro hfc
      have hmem := whichOneof_mem _ _ hf
      have hcU : c ≠ .UNSPECIFIED := by
        intro hcu
        subst hcu
        rw [hfc] at hmem
        rcases hmem with h | h | h | h | h | h <;> exact absurd h (by decide)
      exact dispatch_normal_variant m _ c _ hcU
    · intro h
      rw [(dispatch_shape m _ (.inl c) _).2] at h
      cases h

/-- C2 witness: a message declaring category BATTERY (5) while carrying a
`fuse` metadata sub-message decodes to the mismatched variant. -/
theorem component_mismatched_category_iff_witness :
    (((componentFromProto { category := 5, category_type := .fuse {} }).isMismatchedCategory = true ↔
        "fuse" ≠ ComponentCategory.BATTERY.pyName)
    ∧ ("fuse" = ComponentCategory.BATTERY.pyName →
        (componentFromProto { category := 5, category_type := .fuse {} }).isNormalVariantFor
            .BATTERY = true)
    ∧ ((componentFromProto { category := 5, category_type := .fuse {} }).isMismatchedCategory = true →
        (componentFromProto { category := 5, category_type := .fuse {} }).mismatchedDeclaredCategory? =
            some (.inl .BATTERY)
        ∧ (componentFromProto { category := 5, category_type := .fuse {} }).mismatchedMetadata? =
            some (PbCategoryMetadata.fuse {}).setFieldDict)) :=
  component_mismatched_category_iff { category := 5, category_type := .fuse {} }
    .BATTERY "fuse" (by rfl) (by rfl)

/-- C3 (corrected): `receive_component_data_samples_stream` performs no
component-existence or category resolution before returning a receiver: for
every client state, component id and metric list it returns a receiver
attached to the broadcaster registered under the stream key (creating the
broadcaster on a miss), with the requested buffer size, and no validation
error can be raised. -/
theorem receive_stream_no_category_validation (st : ClientState) (cid : Nat)
    (ms : List Int) (n : Nat) :
    ∃ b : Broadcaster,
      (((receiveComponentDataSamplesStream st cid ms n).1).broadcasters.lookup
          (streamKey cid ms) = some b)
      ∧ (receiveComponentDataSamplesStream st cid ms n).2 =
          { broadcaster := b.bid, maxsize := n } := by
  simp only [receiveComponentDataSamplesStream]
  cases hl : st.broadcasters.lookup (streamKey cid ms) with
  | some b => exact ⟨b, by simp [hl], rfl⟩
  | none =>
      refine ⟨{ bid := st.nextBroadcasterId,
                stream_name := s!"microgrid-client-component-data-{streamKey cid ms}",
                call := receiveComponentDataStreamCall }, ?_, ?_⟩
      · exact lookup_append_fresh _ _ _ hl
      · rfl

/-- C3 counterexample: requesting a battery telemetry stream (metric 102,
`BATTERY_SOC_PCT`) for component id 83 — the spec's METER component — returns
a receiver rather than raising any category-mismatch validation error; the
method has no error path and never consults the component's category. -/
theorem receive_stream_returns_receiver_for_meter83 :
    (receiveComponentDataSamplesStream {} 83 [102] 50).2 =
      { broadcaster := 0, maxsize := 50 } := by
  rfl

/-- C4: with validation enabled, the set-power methods raise a local
`ValueError` — before the request is handed to the stub — exactly for a NaN
power or a provided lifetime that, rounded to whole seconds, falls outside
the inclusive range 10..900; the reactive variant validates identically to
the active one. -/
theorem set_power_local_validation (cid : Nat) (power : PyFloat)
    (lifetime : Option Timedelta) :
    (isOkB (setComponentPowerActive cid power lifetime true) = false ↔
      power.isNan = true ∨
        ∃ n, deltaToSeconds lifetime = some n ∧ ¬(10 ≤ n ∧ n ≤ 900))
    ∧ setComponentPowerReactive cid power lifetime true =
        setComponentPowerActive cid power lifetime true := by
  refine ⟨?_, rfl⟩
  rw [isOk_setPowerActive]
  exact validate_error_iff power (deltaToSeconds lifetime)

/-- C5: the broadcaster registry keeps at most one broadcaster per stream
key: a second subscription with the same component id and an equal metric set
leaves the registry unchanged and returns a receiver attached to the
broadcaster obtained by the first subscription; moreover a subscription
preserves distinctness of the registry keys. -/
theorem broadcaster_registry_reuse (st : ClientState) (cid : Nat)
    (ms1 ms2 : List Int) (n1 n2 : Nat) (h : ms1.toFinset = ms2.toFinset) :
    ((receiveComponentDataSamplesStream
        (receiveComponentDataSamplesStream st cid ms1 n1).1 cid ms2 n2).1 =
      (receiveComponentDataSamplesStream st cid ms1 n1).1)
    ∧ ((receiveComponentDataSamplesStream
          (receiveComponentDataSamplesStream st cid ms1 n1).1 cid ms2 n2).2.broadcaster =
        (receiveComponentDataSamplesStream st cid ms1 n1).2.broadcaster)
    ∧ ((st.broadcasters.map Prod.fst).Nodup →
        ((((receiveComponentDataSamplesStream st cid ms1 n1).1).broadcasters.map
            Prod.fst)).Nodup) := by
  have hkey : streamKey cid ms2 = streamKey cid ms1 := by
    simp [streamKey, h]
  simp only [receiveComponentDataSamplesStream, hkey]
  cases hl : st.broadcasters.lookup (streamKey cid ms1) with
  | some b => simp [hl]
  | none =>
      have h2 := lookup_append_fresh st.broadcasters (streamKey cid ms1)
        { bid := st.nextBroadcasterId,
          stream_name := s!"microgrid-client-component-data-{streamKey cid ms1}",
          call := receiveComponentDataStreamCall } hl
      have h3 := lookup_none_not_mem st.broadcasters (streamKey cid ms1) hl
      refine ⟨?_, ?_, ?_⟩
      · simp only [hl, h2]
      · simp only [hl, h2]
      · intro hnd
        simp only [hl]
        simp only [List.map_append, List.map_cons, List.map_nil]
        rw [List.nodup_append]
        refine ⟨hnd, List.nodup_singleton _, ?_⟩
        intro x hx hx2
        simp only [List.mem_singleton] at hx2
        subst hx2
        exact h3 hx

/-- C5 witness: subscribing twice to component 9 with the metric lists
`[1, 2]` and `[2, 1]` (equal as sets) reuses the broadcaster created by the
first call. -/
theorem broadcaster_registry_reuse_witness :
    ((receiveComponentDataSamplesStream
        (receiveComponentDataSamplesStream {} 9 [1, 2] 50).1 9 [2, 1] 50).1 =
      (receiveComponentDataSamplesStream {} 9 [1, 2] 50).1)
    ∧ ((receiveComponentDataSamplesStream
          (receiveComponentDataSamplesStream {} 9 [1, 2] 50).1 9 [2, 1] 50).2.broadcaster =
        (receiveComponentDataSamplesStream {} 9 [1, 2] 50).2.broadcaster)
    ∧ ((({} : ClientState).broadcasters.map Prod.fst).Nodup →
        ((((receiveComponentDataSamplesStream {} 9 [1, 2] 50).1).broadcasters.map
            Prod.fst)).Nodup) :=
  broadcaster_registry_reuse {} 9 [1, 2] [2, 1] 50 50 (by decide)

/-- C6: `ClientError.from_grpc_error` wraps every transport error into
exactly one typed error that always carries the server URL, the operation
name and the original transport error, and whose class is the dedicated
subclass for each of the sixteen recognized statuses and the base
`GrpcStatusError` for any other status. -/
theorem from_grpc_error_classification (url op : String) (e : GrpcError) :
    (fromGrpcError url op e).server_url = url
    ∧ (fromGrpcError url op e).operation = op
    ∧ (fromGrpcError url op e).grpc_error = e
    ∧ (fromGrpcError url op e).kind = claimedKindForStatus e.status := by
  obtain ⟨s, msg, det⟩ := e
  cases s <;> exact ⟨rfl, rfl, rfl, rfl⟩

/-- C7: unknown enum integers are preserved, never coerced: a component whose
category integer is not a `ComponentCategory` member decodes to
`UnrecognizedComponent` carrying that raw integer, and a battery whose type
integer is not a `BatteryType` member decodes to `UnrecognizedBattery`
carrying that raw integer. -/
theorem unknown_enum_values_preserved (m : PbComponent) :
    (∀ n : Int, enumFromProtoCategory m.category = .inr n →
      (componentFromProto m).unrecognizedCategory? = some n)
    ∧ (enumFromProtoCategory m.category = .inl .BATTERY →
        (m.category_type.whichOneof = none ∨
         m.category_type.whichOneof = some "battery") →
        ∀ t : Int,
          enumFromProtoBatteryType m.category_type.getBattery.type = .inr t →
          (componentFromProto m).unrecognizedBatteryType? = some t) := by
  constructor
  · intro n hc
    simp only [componentFromProto, componentFromProtoWithIssues, hc]
    cases hw : m.category_type.whichOneof <;>
      simp only [componentFromProtoDispatch, ComponentTypes.unrecognizedCategory?]
  · intro hc hno t ht
    simp only [componentFromProto, componentFromProtoWithIssues, hc]
    have hcm : categoryMatches "battery" ComponentCategory.BATTERY = false := by rfl
    rcases hno with hw | hw <;>
      simp only [hw, hcm, Bool.false_eq_true, if_false,
        componentFromProtoDispatch, batteryFromProto, ht,
        ComponentTypes.unrecognizedBatteryType?]

/-- C7 witness: category integer 99 decodes to an unrecognized component
preserving 99, and battery type integer 77 decodes to an unrecognized battery
preserving 77. -/
theorem unknown_enum_values_preserved_witness :
    ((componentFromProto { category := 99 }).unrecognizedCategory? = some 99)
    ∧ ((componentFromProto
          { category := 5,
            category_type := .battery { type := 77 } }).unrecognizedBatteryType? =
        some 77) :=
  ⟨(unknown_enum_values_preserved { category := 99 }).1 99 (by rfl),
   (unknown_enum_values_preserved
      { category := 5, category_type := .battery { type := 77 } }).2
     (by rfl) (.inr rfl) 77 (by rfl)⟩

/-- C8 (corrected): every stub invocation made by the client — the five
one-shot RPCs and also the streaming `ReceiveComponentDataStream` call inside
the broadcaster's stream factory — passes the fixed
`int(DEFAULT_GRPC_CALL_TIMEOUT)` = 60-second deadline. -/
theorem all_stub_calls_use_60s_deadline :
    getMicrogridInfoCall.timeout = some 60
    ∧ listComponentsCall.timeout = some 60
    ∧ listConnectionsCall.timeout = some 60
    ∧ setComponentPowerActiveCall.timeout = some 60
    ∧ setComponentPowerReactiveCall.timeout = some 60
    ∧ receiveComponentDataStreamCall.timeout = some 60 := by
  have h : pyInt DEFAULT_GRPC_CALL_TIMEOUT = 60 := by
    simp [pyInt, DEFAULT_GRPC_CALL_TIMEOUT]
  refine ⟨?_, ?_, ?_, ?_, ?_, ?_⟩ <;>
    simp [getMicrogridInfoCall, listComponentsCall, listConnectionsCall,
      setComponentPowerActiveCall, setComponentPowerReactiveCall,
      receiveComponentDataStreamCall, h]

/-- C8 counterexample: the streaming telemetry RPC does carry an overall
deadline (60 seconds), refuting the claim that it has none. -/
theorem streaming_call_passes_deadline :
    receiveComponentDataStreamCall.timeout ≠ none := by
  simp [receiveComponentDataStreamCall]

/-- C9: constructing a `Lifetime` fails exactly when both endpoints are set
with start after end; consequently every component and every connection
returned by the decoders carries a well-formed operational lifetime, and an
invalid wire lifetime is replaced by the fully unbounded `Lifetime()`. -/
theorem lifetime_invariant_holds :
    (∀ os oe : Option Int,
      isOkB (Lifetime.make os oe) = false ↔
        ∃ s e, os = some s ∧ oe = some e ∧ e < s)
    ∧ (∀ m : PbComponent,
        (((componentFromProto m).info).operational_lifetime).valid = true)
    ∧ (∀ m : PbComponentConnection,
        ((componentConnectionFromProto m).operational_lifetime).valid = true)
    ∧ (∀ (pl : PbLifetime) (is : Issues),
        isOkB (lifetimeFromProto pl) = false →
        (getOperationalLifetimeFromProto (some pl) is).1 = {}) := by
  refine ⟨?_, ?_, ?_, ?_⟩
  · intro os oe
    cases os with
    | none => simp [Lifetime.make, isOkB]
    | some s =>
        cases oe with
        | none => simp [Lifetime.make, isOkB]
        | some e =>
            simp only [Lifetime.make]
            split
            · rename_i h
              simp only [isOkB]
              constructor
              · intro _; exact ⟨s, e, rfl, rfl, h⟩
              · intro _; trivial
            · rename_i h
              simp only [isOkB]
              constructor
              · intro hx; cases hx
              · rintro ⟨s2, e2, hs, he, hlt⟩
                cases hs; cases he
                exact absurd hlt h
  · intro m
    simp only [componentFromProto, componentFromProtoWithIssues]
    split
    · split
      · exact getOperationalLifetime_valid _ _
      · rw [(dispatch_shape _ _ _ _).1]
        exact getOperationalLifetime_valid _ _
    · rw [(dispatch_shape _ _ _ _).1]
      exact getOperationalLifetime_valid _ _
  · intro m
    simp only [componentConnectionFromProto]
    exact getOperationalLifetime_valid _ _
  · intro pl is h
    simp only [getOperationalLifetimeFromProto]
    cases hl : lifetimeFromProto pl with
    | ok l => rw [hl] at h; simp [isOkB] at h
    | error e => rfl

/-- C9 witness: the lifetime 5..3 is rejected by the constructor and, arriving
on the wire, is downgraded to the unbounded lifetime. -/
theorem lifetime_invariant_holds_witness :
    (isOkB (Lifetime.make (some 5) (some 3)) = false)
    ∧ (getOperationalLifetimeFromProto
        (some { start_timestamp := some 5, end_timestamp := some 3 }) {}).1 = {} :=
  ⟨(lifetime_invariant_holds.1 (some 5) (some 3)).mpr ⟨5, 3, rfl, rfl, by decide⟩,
   lifetime_invariant_holds.2.2.2
     { start_timestamp := some 5, end_timestamp := some 3 } {} (by decide)⟩

/-- C10: a component's `active` property is true exactly when its status is
ACTIVE or UNSPECIFIED (an unspecified status is treated as active); it is a
function of the status alone, so an unrecognized integer status yields false
and the operational lifetime is never consulted. -/
theorem component_active_iff_status (c : ComponentInfo) :
    (c.active = true ↔ c.status = .inl .ACTIVE ∨ c.status = .inl .UNSPECIFIED)
    ∧ ∀ l : Lifetime,
        ComponentInfo.active { c with operational_lifetime := l } = c.active := by
  constructor
  · simp [ComponentInfo.active]
  · intro l; rfl

/-- C1 witness: the totality characterization evaluated on a concrete
well-formed message (one sample with an ordered bound). -/
theorem decode_data_sample_ok_iff_bounds_ordered_witness :
    isOkB (componentDataSampleFromProto
        { component_id := 7,
          metric_samples := [{ metric := 3, bounds := [{ lower := 0, upper := 2 }] }],
          states := [{ sampled_at := 1, states := [4], warnings := [], errors := [999] }] }) =
      List.all
        [({ metric := 3, bounds := [{ lower := 0, upper := 2 }] } : PbMetricSample)]
        (fun s => s.bounds.all fun b => decide (b.lower ≤ b.upper)) :=
  decode_data_sample_ok_iff_bounds_ordered
    { component_id := 7,
      metric_samples := [{ metric := 3, bounds := [{ lower := 0, upper := 2 }] }],
      states := [{ sampled_at := 1, states := [4], warnings := [], errors := [999] }] }

/-- C3 witness: the no-validation theorem evaluated on a concrete call. -/
theorem receive_stream_no_category_validation_witness :
    ∃ b : Broadcaster,
      (((receiveComponentDataSamplesStream {} 7 [3] 10).1).broadcasters.lookup
          (streamKey 7 [3]) = some b)
      ∧ (receiveComponentDataSamplesStream {} 7 [3] 10).2 =
          { broadcaster := b.bid, maxsize := 10 } :=
  receive_stream_no_category_validation {} 7 [3] 10

/-- C4 witness: the validation characterization evaluated at a finite power
of 100 W and a 60-second lifetime. -/
theorem set_power_local_validation_witness :
    (isOkB (setComponentPowerActive 1 (.val 100)
        (some { microseconds := 60000000 }) true) = false ↔
      PyFloat.isNan (.val 100) = true ∨
        ∃ n, deltaToSeconds (some { microseconds := 60000000 }) = some n ∧
          ¬(10 ≤ n ∧ n ≤ 900))
    ∧ setComponentPowerReactive 1 (.val 100)
          (some { microseconds := 60000000 }) true =
        setComponentPowerActive 1 (.val 100)
          (some { microseconds := 60000000 }) true :=
  set_power_local_validation 1 (.val 100) (some { microseconds := 60000000 })

/-- C6 witness: a NOT_FOUND transport error wraps into the dedicated
`EntityNotFound` class with the context attached. -/
theorem from_grpc_error_classification_witness :
    (fromGrpcError "grpc://localhost:9090" "ListComponents"
        { status := .notFound }).server_url = "grpc://localhost:9090"
    ∧ (fromGrpcError "grpc://localhost:9090" "ListComponents"
        { status := .notFound }).operation = "ListComponents"
    ∧ (fromGrpcError "grpc://localhost:9090" "ListComponents"
        { status := .notFound }).grpc_error = { status := .notFound }
    ∧ (fromGrpcError "grpc://localhost:9090" "ListComponents"
        { status := .notFound }).kind =
        claimedKindForStatus (GrpcError.mk .notFound "" "").status :=
  from_grpc_error_classification "grpc://localhost:9090" "ListComponents"
    { status := .notFound }

/-- C10 witness: the `active` characterization evaluated at a concrete
component with ACTIVE status. -/
theorem component_active_iff_status_witness :
    (ComponentInfo.active
        { id := 1, microgrid_id := 2, name := "", manufacturer := "",
          model_name := "", status := .inl .ACTIVE, operational_lifetime := {},
          rated_bounds := [] } = true ↔
      ({ id := 1, microgrid_id := 2, name := "", manufacturer := "",
          model_name := "", status := .inl .ACTIVE, operational_lifetime := {},
          rated_bounds := [] } : ComponentInfo).status = .inl .ACTIVE ∨
        ({ id := 1, microgrid_id := 2, name := "", manufacturer := "",
            model_name := "", status := .inl .ACTIVE, operational_lifetime := {},
            rated_bounds := [] } : ComponentInfo).status = .inl .UNSPECIFIED)
    ∧ ∀ l : Lifetime,
        ComponentInfo.active
            { id := 1, microgrid_id := 2, name := "", manufacturer := "",
              model_name := "", status := .inl .ACTIVE, operational_lifetime := l,
              rated_bounds := [] } =
          ComponentInfo.active
            { id := 1, microgrid_id := 2, name := "", manufacturer := "",
              model_name := "", status := .inl .ACTIVE, operational_lifetime := {},
              rated_bounds := [] } :=
  component_active_iff_status
    { id := 1, microgrid_id := 2, name := "", manufacturer := "",
      model_name := "", status := .inl .ACTIVE, operational_lifetime := {},
      rated_bounds := [] }

end Microgrid
